import Mathlib

/-!
Verification of the memory retrieval-and-consolidation pipeline of the
Smart Memory AI Agent (Streamlit + Gemini + mem0 + Qdrant).

The conversation turn handler `submit_message`, the login/logout/clear-chat
handlers and the prompt construction are embedded directly from
`src/app.py`.  The Memory Store itself (the mem0 `Memory` client: `search`,
`add`, `clear`) is an external collaborator whose source is not part of
this repository; its behaviour is modelled from the specification
(owner-scoped records, near-duplicate merge-in-place, owner-scoped clear).
External providers (embedding, vector index, generation) appear as an
environment of opaque functions plus availability flags; an unavailable
provider raises, and the embedding propagates that exception exactly
where the Python code would.
-/

namespace SmartMemory

/-- A durable memory record (spec section 3): an opaque id assigned at
creation, the owner scope, and the distilled text.  The embedding vector,
metadata and timestamps play no role in the claims and are not modelled. -/
structure MemoryRecord where
  id : Nat
  owner_id : String
  text : String
  deriving Repr, DecidableEq

/-- A relationship edge of the optional graph store (spec section 3):
a subject/relation/target triple scoped by owner. -/
structure RelationshipEdge where
  subject : String
  relation : String
  target : String
  owner_id : String
  deriving Repr, DecidableEq

/-- The durable state held by the Memory Store across both backends:
the vector-index records, the graph edges, and the next fresh record id. -/
structure Store where
  records : List MemoryRecord
  edges : List RelationshipEdge
  nextId : Nat
  deriving Repr, DecidableEq

/-- Errors raised by unavailable external providers (spec section 7,
`ProviderUnavailable`). -/
inductive Err where
  | providerUnavailable
  deriving Repr, DecidableEq

/-- The external collaborators of the core, as opaque functions plus
availability flags: similarity ranking of the vector index, the
generation provider, the near-duplicate similarity test and the
fact/edge extraction performed inside the mem0 `add` call. -/
structure Env where
  searchAvailable : Bool
  genAvailable : Bool
  addAvailable : Bool
  rank : String → List MemoryRecord → List MemoryRecord
  topK : Nat
  generate : String → String
  isNearDup : String → String → Bool
  extractFacts : List (String × String) → List String
  extractEdges : List (String × String) → List (String × String × String)

/-- Modelled from the spec: Memory Store retrieval (section 4.1), since the
mem0 `Memory.search` implementation is not part of this repository.
Performs a nearest-neighbour ranking restricted to the records of
`owner_id` and returns a bounded number of top matches. -/
def memSearch (env : Env) (query owner_id : String) (st : Store) : List MemoryRecord :=
  (env.rank query (st.records.filter (fun r => r.owner_id == owner_id))).take env.topK

/-- A record is a near-duplicate candidate for statement `s` inside the
scope of `owner_id`. -/
def hitsDup (env : Env) (owner_id s : String) (r : MemoryRecord) : Bool :=
  r.owner_id == owner_id && env.isNearDup s r.text

/-- Update the first near-duplicate of `s` in place, merging its text to
the statement; the record id is left stable (spec section 3, "record
identifiers are stable across merges"). -/
def mergeFirst (env : Env) (owner_id s : String) : List MemoryRecord → List MemoryRecord
  | [] => []
  | r :: rs =>
    if hitsDup env owner_id s r then { r with text := s } :: rs
    else r :: mergeFirst env owner_id s rs

/-- Modelled from the spec: the per-statement consolidation step of the
mem0 `Memory.add` call (section 4.2), which is not part of this
repository.  If a near-duplicate exists in the owner scope it is updated
in place, otherwise a fresh record is created. -/
def addStatement (env : Env) (owner_id s : String) (st : Store) : Store :=
  if st.records.any (hitsDup env owner_id s) then
    { st with records := mergeFirst env owner_id s st.records }
  else
    { st with records := st.records ++ [⟨st.nextId, owner_id, s⟩],
              nextId := st.nextId + 1 }

/-- Modelled from the spec: graph-edge upsert with merge-on-duplicate
(section 4.2), the neo4j-backed graph writer not being part of this
repository. -/
def addEdge (owner_id : String) (t : String × String × String) (st : Store) : Store :=
  if st.edges.any (fun e =>
      e.owner_id == owner_id && e.subject == t.1 && e.relation == t.2.1 && e.target == t.2.2) then
    st
  else
    { st with edges := st.edges ++ [⟨t.1, t.2.1, t.2.2, owner_id⟩] }

/-- Modelled from the spec: the mem0 `Memory.add` consolidation call
(section 4.2), not part of this repository.  Extracts candidate facts and
edges from the turn pair and folds each through the owner-scoped merge
step. -/
def memAdd (env : Env) (owner_id : String) (msgs : List (String × String)) (st : Store) : Store :=
  let st1 := (env.extractFacts msgs).foldl (fun acc s => addStatement env owner_id s acc) st
  (env.extractEdges msgs).foldl (fun acc t => addEdge owner_id t acc) st1

/-- Modelled from the spec: `clear(owner_id)` (section 4.3), not invoked
anywhere in this repository's source: removes every MemoryRecord and
RelationshipEdge of the given owner and nothing else. -/
def memClear (owner_id : String) (st : Store) : Store :=
  { st with records := st.records.filter (fun r => !(r.owner_id == owner_id)),
            edges := st.edges.filter (fun e => !(e.owner_id == owner_id)) }

/-- The whitespace class of Python `str.strip()`. -/
def isPySpace (c : Char) : Bool :=
  c = ' ' || c = '\t' || c = '\n' || c = '\r' || c = '\x0b' || c = '\x0c'

/-- Python `str.strip()`: drop leading and trailing whitespace. -/
def pyStrip (s : String) : String :=
  String.mk (((s.toList.dropWhile isPySpace).reverse.dropWhile isPySpace).reverse)

/-- JSON escaping of one character, as `json.dumps` renders characters
inside a string literal. -/
def jsonEscape (c : Char) : String :=
  if c = '"' then "\\\""
  else if c = '\\' then "\\\\"
  else if c = '\n' then "\\n"
  else if c = '\t' then "\\t"
  else if c = '\r' then "\\r"
  else if c = '\x08' then "\\b"
  else if c = '\x0c' then "\\f"
  else if c.toNat < 32 then
    "\\u00" ++ String.singleton (Nat.digitChar (c.toNat / 16)) ++
      String.singleton (Nat.digitChar (c.toNat % 16))
  else String.singleton c

/-- A JSON string literal for `s`. -/
def jsonQuote (s : String) : String :=
  "\"" ++ String.join (s.toList.map jsonEscape) ++ "\""

/-- `json.dumps(xs, indent=2)` for a list of strings, as used at
src/app.py line 300. -/
def jsonDumpsIndent2 (xs : List String) : String :=
  match xs with
  | [] => "[]"
  | _ => "[\n  " ++ String.intercalate ",\n  " (xs.map jsonQuote) ++ "\n]"

/-- The fixed opening of the f-string `system_prompt` of src/app.py
lines 297-302. -/
def promptHeader : String :=
  "\n        You are a helpful AI Assistant.\n        User context (from previous chats):\n        "

/-- The fixed text between the memory context and the user message in
`system_prompt`. -/
def promptMid : String := "\n        User message: "

/-- The trailing indentation of `system_prompt`. -/
def promptTail : String := "\n        "

/-- The f-string `system_prompt` of src/app.py lines 297-302: the fixed
assistant header, the JSON dump of the retrieved memory context, and the
user message. -/
def buildPrompt (memories : List String) (user_query : String) : String :=
  promptHeader ++ jsonDumpsIndent2 memories ++ promptMid ++ user_query ++ promptTail

/-- The ephemeral Streamlit session state: the logged-in user (absent
after logout), the text-area content, and the visible chat history as
user/assistant pairs. -/
structure SessionState where
  user_email : Option String
  user_input : String
  chat_history : List (String × String)
  deriving Repr, DecidableEq

/-- The whole application state: ephemeral session plus the durable
Memory Store. -/
structure AppState where
  session : SessionState
  store : Store
  deriving Repr, DecidableEq

/-- One observable call issued by the turn handler to an external
collaborator, in program order. -/
inductive Event where
  | search (query owner_id : String)
  | generate (prompt : String)
  | add (owner_id : String) (msgs : List (String × String))
  deriving Repr, DecidableEq

/-- The owner scope an event carries, when it is a Memory Store call. -/
def Event.owner? : Event → Option String
  | .search _ o => some o
  | .generate _ => none
  | .add o _ => some o

/-- Whether the turn handler raised an exception to its caller or
completed, yielding the updated application state. -/
inductive Outcome where
  | ok (st : AppState)
  | raised (e : Err)
  deriving Repr, DecidableEq

/-- Wrapper for the mem0 search call: raises when the embedding provider
or the vector index is unreachable (src/app.py line 295 performs no
exception handling around it). -/
def memSearchE (env : Env) (query owner_id : String) (st : Store) :
    Except Err (List MemoryRecord) :=
  if env.searchAvailable then .ok (memSearch env query owner_id st)
  else .error .providerUnavailable

/-- Wrapper for the Gemini generation call of src/app.py line 303. -/
def generateE (env : Env) (prompt : String) : Except Err String :=
  if env.genAvailable then .ok (env.generate prompt) else .error .providerUnavailable

/-- Wrapper for the mem0 add call of src/app.py lines 306-309. -/
def memAddE (env : Env) (owner_id : String) (msgs : List (String × String)) (st : Store) :
    Except Err Store :=
  if env.addAvailable then .ok (memAdd env owner_id msgs st)
  else .error .providerUnavailable

/-- The conversation turn handler `submit_message` of src/app.py lines
291-312, with `user_id` the closure variable bound at line 276.  The
straight-line Python is embedded statement by statement; an exception
from any provider call propagates (the function body has no
try/except), and the returned trace lists the provider calls issued
before control left the function. -/
def submit_message (env : Env) (user_id : String) (st : AppState) :
    Outcome × List Event :=
  let user_query := pyStrip st.session.user_input
  if user_query = "" then (.ok st, [])
  else
    match memSearchE env user_query user_id st.store with
    | .error e => (.raised e, [.search user_query user_id])
    | .ok results =>
      let memories := results.map (fun mem => "Memory: " ++ mem.text)
      let system_prompt := buildPrompt memories user_query
      match generateE env system_prompt with
      | .error e => (.raised e, [.search user_query user_id, .generate system_prompt])
      | .ok ai_response =>
        let msgs := [("user", user_query), ("assistant", ai_response)]
        match memAddE env user_id msgs st.store with
        | .error e =>
          (.raised e,
           [.search user_query user_id, .generate system_prompt, .add user_id msgs])
        | .ok store1 =>
          (.ok { session := { st.session with
                                chat_history :=
                                  st.session.chat_history ++ [(user_query, ai_response)],
                                user_input := "" },
                 store := store1 },
           [.search user_query user_id, .generate system_prompt, .add user_id msgs])

/-- The stripped user query of a turn (src/app.py line 292). -/
def turnQuery (st : AppState) : String := pyStrip st.session.user_input

/-- The memory-context lines of a turn (src/app.py line 296). -/
def turnMemories (env : Env) (user_id : String) (st : AppState) : List String :=
  (memSearch env (turnQuery st) user_id st.store).map (fun mem => "Memory: " ++ mem.text)

/-- The generation prompt of a turn (src/app.py lines 297-302). -/
def turnPrompt (env : Env) (user_id : String) (st : AppState) : String :=
  buildPrompt (turnMemories env user_id st) (turnQuery st)

/-- The assistant reply of a turn when every provider is reachable
(src/app.py lines 303-304). -/
def turnReply (env : Env) (user_id : String) (st : AppState) : String :=
  env.generate (turnPrompt env user_id st)

/-- The user/assistant message pair committed to the Memory Store
(src/app.py lines 306-309). -/
def turnMsgs (env : Env) (user_id : String) (st : AppState) : List (String × String) :=
  [("user", turnQuery st), ("assistant", turnReply env user_id st)]

/-- The Logout button handler of src/app.py lines 266-270: pops
`user_email` and `chat_history` from the session state and touches
nothing else.  It issues no Memory Store call. -/
def logout (st : AppState) : AppState × List Event :=
  ({ st with session := { st.session with user_email := none, chat_history := [] } }, [])

/-- The Clear Chat button handler of src/app.py lines 346-348: resets the
visible chat history and touches nothing else.  It issues no Memory
Store call. -/
def clearChat (st : AppState) : AppState × List Event :=
  ({ st with session := { st.session with chat_history := [] } }, [])

/-! ### Concrete instances used to exercise the definitions -/

/-- A concrete environment where every provider is reachable: ranking
passes the owner-filtered list through, generation is a constant reply,
near-duplicate means textual equality, and extraction keeps the user
utterances as facts. -/
def envOk : Env where
  searchAvailable := true
  genAvailable := true
  addAvailable := true
  rank := fun _ l => l
  topK := 5
  generate := fun _ => "reply"
  isNearDup := fun a b => a == b
  extractFacts := fun msgs => msgs.filterMap (fun m => if m.1 == "user" then some m.2 else none)
  extractEdges := fun _ => []

/-- The environment `envOk` with the vector index unreachable during
search. -/
def envSearchDown : Env := { envOk with searchAvailable := false }

/-- The environment `envOk` with the consolidation backend unreachable
during add. -/
def envAddDown : Env := { envOk with addAvailable := false }

/-- An empty Memory Store. -/
def store0 : Store := { records := [], edges := [], nextId := 0 }

/-- A session for the logged-in owner u1 with the message hi pending. -/
def sess1 : SessionState :=
  { user_email := some "u1", user_input := "hi", chat_history := [] }

/-- The application state for `sess1` over an empty store. -/
def app1 : AppState := { session := sess1, store := store0 }

/-- A store where owners u1 and u2 each hold one record and one edge. -/
def storeW : Store :=
  { records := [{ id := 0, owner_id := "u1", text := "likes jazz" },
                { id := 1, owner_id := "u2", text := "likes jazz" }],
    edges := [{ subject := "u1", relation := "likes", target := "jazz", owner_id := "u1" },
              { subject := "u2", relation := "likes", target := "jazz", owner_id := "u2" }],
    nextId := 2 }

/-! ### Helper lemmas about the Memory Store model -/

theorem addEdge_records (owner_id : String) (t : String × String × String) (st : Store) :
    (addEdge owner_id t st).records = st.records := by
  unfold addEdge; split <;> rfl

theorem addStatement_edges (env : Env) (owner_id s : String) (st : Store) :
    (addStatement env owner_id s st).edges = st.edges := by
  unfold addStatement; split <;> rfl

theorem foldl_addEdge_records (owner_id : String) (ts : List (String × String × String))
    (st : Store) :
    (ts.foldl (fun acc t => addEdge owner_id t acc) st).records = st.records := by
  induction ts generalizing st with
  | nil => rfl
  | cons t ts ih => rw [List.foldl_cons, ih, addEdge_records]

theorem foldl_addStatement_edges (env : Env) (owner_id : String) (ss : List String)
    (st : Store) :
    (ss.foldl (fun acc s => addStatement env owner_id s acc) st).edges = st.edges := by
  induction ss generalizing st with
  | nil => rfl
  | cons s ss ih => rw [List.foldl_cons, ih, addStatement_edges]

/-- The record list produced by `memAdd` is the fold of the per-statement
merge step; edge upserts leave it untouched. -/
theorem memAdd_records (env : Env) (owner_id : String) (msgs : List (String × String))
    (st : Store) :
    (memAdd env owner_id msgs st).records =
      ((env.extractFacts msgs).foldl (fun acc s => addStatement env owner_id s acc) st).records := by
  unfold memAdd
  exact foldl_addEdge_records _ _ _

/-! ### Claim theorems -/

/-- C9: if the user input is empty or whitespace after stripping,
`submit_message` returns immediately with no side effects: no search, no
generation, no memory write (empty event trace), and the session state,
chat history included, is unchanged. -/
theorem C9_blank_input_noop (env : Env) (user_id : String) (st : AppState)
    (h : pyStrip st.session.user_input = "") :
    submit_message env user_id st = (.ok st, []) := by
  unfold submit_message
  simp [h]

/-- Witness for C9 at a whitespace-only input. -/
theorem C9_blank_input_noop_witness :
    submit_message envOk "u1"
        { session := { user_email := some "u1", user_input := "  \t\n ", chat_history := [] },
          store := store0 } =
      (.ok { session := { user_email := some "u1", user_input := "  \t\n ", chat_history := [] },
             store := store0 }, []) :=
  C9_blank_input_noop envOk "u1" _ (by decide)

/-- C10: the Logout handler and the Clear Chat handler mutate only the
ephemeral session state; neither issues any Memory Store call, and the
durable records and edges are unchanged. -/
theorem C10_logout_clear_preserve_store (st : AppState) :
    (logout st).1.store = st.store ∧ (logout st).2 = [] ∧
      (clearChat st).1.store = st.store ∧ (clearChat st).2 = [] :=
  ⟨rfl, rfl, rfl, rfl⟩

/-- C1 counterexample: with the vector index unreachable during search,
`submit_message` raises to its caller after the search call; no
generation call is made and no reply is produced, contradicting the
claim that a reply with empty context is still returned. -/
theorem C1_counterexample :
    submit_message envSearchDown "u1" app1 =
      (.raised .providerUnavailable, [.search "hi" "u1"]) := by
  decide

/-- C1 amended: if the Embedding Provider or Vector Index is unavailable
during search, `submit_message` propagates the retrieval error to the
caller: the outcome is a raised `providerUnavailable`, only the search
call was issued (no generation, no memory write), and the chat history
is never appended. -/
theorem C1_retrieval_error_propagates (env : Env) (user_id : String) (st : AppState)
    (hs : env.searchAvailable = false) (hq : pyStrip st.session.user_input ≠ "") :
    submit_message env user_id st =
      (.raised .providerUnavailable, [.search (pyStrip st.session.user_input) user_id]) := by
  unfold submit_message memSearchE
  simp [hs, hq]

/-- Witness for C1 amended at a concrete unavailable environment. -/
theorem C1_retrieval_error_propagates_witness :
    submit_message envSearchDown "u1" app1 =
      (.raised .providerUnavailable, [.search (pyStrip app1.session.user_input) "u1"]) :=
  C1_retrieval_error_propagates envSearchDown "u1" app1 rfl (by decide)

/-- C2 counterexample: with the consolidation backend unreachable during
add, `submit_message` raises instead of completing, so the generated
reply is never appended to the visible chat history, contradicting the
claim that the reply is returned to the caller even when the
memory-write fails. -/
theorem C2_counterexample :
    (submit_message envAddDown "u1" app1).1 = .raised .providerUnavailable := by
  decide

/-- C2 amended: when the memory-write fails, the exception propagates out
of `submit_message` and the reply is lost: search and generation were
issued, the add call was issued and failed, and the turn raises, so the
reply is not appended to the chat history.  The reply reaches the chat
history only when the add call succeeds. -/
theorem C2_reply_lost_when_add_fails (env : Env) (user_id : String) (st : AppState)
    (hs : env.searchAvailable = true) (hg : env.genAvailable = true)
    (ha : env.addAvailable = false) (hq : pyStrip st.session.user_input ≠ "") :
    submit_message env user_id st =
      (.raised .providerUnavailable,
       [.search (pyStrip st.session.user_input) user_id,
        .generate (buildPrompt
          ((memSearch env (pyStrip st.session.user_input) user_id st.store).map
            (fun mem => "Memory: " ++ mem.text))
          (pyStrip st.session.user_input)),
        .add user_id
          [("user", pyStrip st.session.user_input),
           ("assistant", env.generate (buildPrompt
             ((memSearch env (pyStrip st.session.user_input) user_id st.store).map
               (fun mem => "Memory: " ++ mem.text))
             (pyStrip st.session.user_input)))]]) := by
  unfold submit_message memSearchE generateE memAddE
  simp [hs, hg, ha, hq]

/-- Witness for C2 amended at a concrete environment with a failing
consolidation backend. -/
theorem C2_reply_lost_when_add_fails_witness :
    submit_message envAddDown "u1" app1 =
      (.raised .providerUnavailable,
       [.search (pyStrip app1.session.user_input) "u1",
        .generate (buildPrompt
          ((memSearch envAddDown (pyStrip app1.session.user_input) "u1" app1.store).map
            (fun mem => "Memory: " ++ mem.text))
          (pyStrip app1.session.user_input)),
        .add "u1"
          [("user", pyStrip app1.session.user_input),
           ("assistant", envAddDown.generate (buildPrompt
             ((memSearch envAddDown (pyStrip app1.session.user_input) "u1" app1.store).map
               (fun mem => "Memory: " ++ mem.text))
             (pyStrip app1.session.user_input)))]]) :=
  C2_reply_lost_when_add_fails envAddDown "u1" app1 rfl rfl rfl (by decide)

/-- C5: for every non-empty user utterance with all providers reachable,
the turn handler performs, in this order: (1) a memory search scoped to
the owner, (2) construction of a generation prompt containing the
retrieved context and the user text, (3) the Generation Provider call,
(4) the commit of the resulting user/assistant pair to the Memory Store;
finally the reply is appended to the chat history. -/
theorem C5_turn_pipeline (env : Env) (user_id : String) (st : AppState)
    (hs : env.searchAvailable = true) (hg : env.genAvailable = true)
    (ha : env.addAvailable = true) (hq : pyStrip st.session.user_input ≠ "") :
    submit_message env user_id st =
      (.ok { session := { st.session with
                            chat_history := st.session.chat_history ++
                              [(turnQuery st, turnReply env user_id st)],
                            user_input := "" },
             store := memAdd env user_id (turnMsgs env user_id st) st.store },
       [.search (turnQuery st) user_id,
        .generate (turnPrompt env user_id st),
        .add user_id (turnMsgs env user_id st)]) ∧
    (∃ a b, turnPrompt env user_id st = a ++ turnQuery st ++ b) ∧
    (∃ a b, turnPrompt env user_id st =
        a ++ jsonDumpsIndent2 (turnMemories env user_id st) ++ b) := by
  refine ⟨?_, ?_, ?_⟩
  · unfold submit_message memSearchE generateE memAddE turnMsgs turnReply turnPrompt
      turnMemories turnQuery
    simp [hs, hg, ha, hq]
  · exact ⟨promptHeader ++ jsonDumpsIndent2 (turnMemories env user_id st) ++ promptMid,
      promptTail, rfl⟩
  · refine ⟨promptHeader, promptMid ++ turnQuery st ++ promptTail, ?_⟩
    unfold turnPrompt buildPrompt
    simp [String.append_assoc]

/-- Witness for C5: the pipeline equation at a concrete environment and
state. -/
theorem C5_turn_pipeline_witness :
    submit_message envOk "u1" app1 =
      (.ok { session := { app1.session with
                            chat_history := app1.session.chat_history ++
                              [(turnQuery app1, turnReply envOk "u1" app1)],
                            user_input := "" },
             store := memAdd envOk "u1" (turnMsgs envOk "u1" app1) app1.store },
       [.search (turnQuery app1) "u1",
        .generate (turnPrompt envOk "u1" app1),
        .add "u1" (turnMsgs envOk "u1" app1)]) :=
  (C5_turn_pipeline envOk "u1" app1 rfl rfl rfl (by decide)).1

/-- C8: for an owner with zero stored records, the memory search returns
an empty list rather than an error, and the turn handler proceeds with
that empty context: the reply generated from the empty-context prompt is
appended to the chat history and the turn is committed as usual. -/
theorem C8_empty_state_retrieval (env : Env) (user_id : String) (st : AppState)
    (hrank : ∀ q l, ∀ r ∈ env.rank q l, r ∈ l)
    (hempty : st.store.records.filter (fun r => r.owner_id == user_id) = [])
    (hs : env.searchAvailable = true) (hg : env.genAvailable = true)
    (ha : env.addAvailable = true) (hq : pyStrip st.session.user_input ≠ "") :
    memSearch env (turnQuery st) user_id st.store = [] ∧
    submit_message env user_id st =
      (.ok { session := { st.session with
                            chat_history := st.session.chat_history ++
                              [(turnQuery st,
                                env.generate (buildPrompt [] (turnQuery st)))],
                            user_input := "" },
             store := memAdd env user_id
               [("user", turnQuery st),
                ("assistant", env.generate (buildPrompt [] (turnQuery st)))] st.store },
       [.search (turnQuery st) user_id,
        .generate (buildPrompt [] (turnQuery st)),
        .add user_id
          [("user", turnQuery st),
           ("assistant", env.generate (buildPrompt [] (turnQuery st)))]]) := by
  have hnil : memSearch env (turnQuery st) user_id st.store = [] := by
    unfold memSearch
    rw [hempty]
    have : env.rank (turnQuery st) [] = [] := by
      refine List.eq_nil_iff_forall_not_mem.mpr (fun x hx => ?_)
      exact absurd (hrank _ _ x hx) (List.not_mem_nil x)
    rw [this, List.take_nil]
  refine ⟨hnil, ?_⟩
  unfold submit_message memSearchE generateE memAddE
  rw [show pyStrip st.session.user_input = turnQuery st from rfl]
  have hq' : turnQuery st ≠ "" := hq
  simp [hs, hg, ha, hq', hnil]

/-- Witness for C8 on a fresh owner over the empty store. -/
theorem C8_empty_state_retrieval_witness :
    memSearch envOk (turnQuery app1) "u1" app1.store = [] ∧
    submit_message envOk "u1" app1 =
      (.ok { session := { app1.session with
                            chat_history := app1.session.chat_history ++
                              [(turnQuery app1,
                                envOk.generate (buildPrompt [] (turnQuery app1)))],
                            user_input := "" },
             store := memAdd envOk "u1"
               [("user", turnQuery app1),
                ("assistant", envOk.generate (buildPrompt [] (turnQuery app1)))] app1.store },
       [.search (turnQuery app1) "u1",
        .generate (buildPrompt [] (turnQuery app1)),
        .add "u1"
          [("user", turnQuery app1),
           ("assistant", envOk.generate (buildPrompt [] (turnQuery app1)))]]) :=
  C8_empty_state_retrieval envOk "u1" app1 (fun _ _ _ h => h) rfl rfl rfl rfl (by decide)

/-- The in-place merge never changes the record set of a different
owner. -/
theorem mergeFirst_filter_ne (env : Env) (A B s : String) (hAB : A ≠ B)
    (l : List MemoryRecord) :
    (mergeFirst env A s l).filter (fun r => r.owner_id == B) =
      l.filter (fun r => r.owner_id == B) := by
  induction l with
  | nil => rfl
  | cons r rs ih =>
    unfold mergeFirst
    by_cases h : hitsDup env A s r = true
    · have hA : (r.owner_id == A) = true := by
        unfold hitsDup at h
        simp only [Bool.and_eq_true] at h
        exact h.1
      have hB : (r.owner_id == B) = false := by
        rw [beq_iff_eq.mp hA]
        exact beq_eq_false_iff_ne.mpr hAB
      simp only [if_pos h, List.filter_cons]
      simp [hB]
    · simp only [if_neg h, List.filter_cons]
      rw [ih]

/-- The per-statement consolidation step never changes the record set of
a different owner. -/
theorem addStatement_filter_ne (env : Env) (A B s : String) (st : Store) (hAB : A ≠ B) :
    (addStatement env A s st).records.filter (fun r => r.owner_id == B) =
      st.records.filter (fun r => r.owner_id == B) := by
  unfold addStatement
  split
  · exact mergeFirst_filter_ne env A B s hAB st.records
  · simp [List.filter_append, List.filter_cons, beq_eq_false_iff_ne.mpr hAB]

theorem foldl_addStatement_filter_ne (env : Env) (A B : String) (ss : List String)
    (st : Store) (hAB : A ≠ B) :
    ((ss.foldl (fun acc s => addStatement env A s acc) st).records.filter
        (fun r => r.owner_id == B)) =
      st.records.filter (fun r => r.owner_id == B) := by
  induction ss generalizing st with
  | nil => rfl
  | cons s ss ih => rw [List.foldl_cons, ih, addStatement_filter_ne env A B s st hAB]

/-- The edge upsert never changes the edge set of a different owner. -/
theorem addEdge_filter_ne (A B : String) (t : String × String × String) (st : Store)
    (hAB : A ≠ B) :
    (addEdge A t st).edges.filter (fun e => e.owner_id == B) =
      st.edges.filter (fun e => e.owner_id == B) := by
  unfold addEdge
  split
  · rfl
  · simp [List.filter_append, List.filter_cons, beq_eq_false_iff_ne.mpr hAB]

theorem foldl_addEdge_filter_ne (A B : String) (ts : List (String × String × String))
    (st : Store) (hAB : A ≠ B) :
    ((ts.foldl (fun acc t => addEdge A t acc) st).edges.filter
        (fun e => e.owner_id == B)) =
      st.edges.filter (fun e => e.owner_id == B) := by
  induction ts generalizing st with
  | nil => rfl
  | cons t ts ih => rw [List.foldl_cons, ih, addEdge_filter_ne A B t st hAB]

/-- The consolidation call never changes the edge set of a different
owner. -/
theorem memAdd_edges_filter_ne (env : Env) (A B : String) (msgs : List (String × String))
    (st : Store) (hAB : A ≠ B) :
    (memAdd env A msgs st).edges.filter (fun e => e.owner_id == B) =
      st.edges.filter (fun e => e.owner_id == B) := by
  unfold memAdd
  rw [foldl_addEdge_filter_ne A B _ _ hAB, foldl_addStatement_edges]

/-- C3: owner scoping.  For owners A different from B: a search scoped to
B returns only records owned by B; a consolidation write under A leaves
the records and edges of B untouched; and every Memory Store call issued
by the turn handler for owner A carries the owner scope A. -/
theorem C3_owner_scoping (env : Env) (A B q : String) (st : Store)
    (msgs : List (String × String)) (ss : SessionState)
    (hrank : ∀ qq l, ∀ r ∈ env.rank qq l, r ∈ l) (hAB : A ≠ B) :
    (∀ r ∈ memSearch env q B st, r.owner_id = B) ∧
    ((memAdd env A msgs st).records.filter (fun r => r.owner_id == B) =
      st.records.filter (fun r => r.owner_id == B)) ∧
    ((memAdd env A msgs st).edges.filter (fun e => e.owner_id == B) =
      st.edges.filter (fun e => e.owner_id == B)) ∧
    (∀ ev ∈ (submit_message env A { session := ss, store := st }).2,
      ev.owner? = none ∨ ev.owner? = some A) := by
  refine ⟨?_, ?_, ?_, ?_⟩
  · intro r hr
    unfold memSearch at hr
    have h1 := List.take_subset _ _ hr
    have h2 := hrank _ _ r h1
    exact beq_iff_eq.mp (List.mem_filter.mp h2).2
  · rw [memAdd_records]
    exact foldl_addStatement_filter_ne env A B _ st hAB
  · exact memAdd_edges_filter_ne env A B msgs st hAB
  · intro ev hev
    by_cases h0 : pyStrip ss.user_input = ""
    · simp [submit_message, h0] at hev
    · cases hsa : env.searchAvailable with
      | false =>
        simp [submit_message, memSearchE, h0, hsa] at hev
        simp [hev, Event.owner?]
      | true =>
        cases hga : env.genAvailable with
        | false =>
          simp [submit_message, memSearchE, generateE, h0, hsa, hga] at hev
          rcases hev with rfl | rfl <;> simp [Event.owner?]
        | true =>
          cases haa : env.addAvailable with
          | false =>
            simp [submit_message, memSearchE, generateE, memAddE, h0, hsa, hga, haa] at hev
            rcases hev with rfl | rfl | rfl <;> simp [Event.owner?]
          | true =>
            simp [submit_message, memSearchE, generateE, memAddE, h0, hsa, hga, haa] at hev
            rcases hev with rfl | rfl | rfl <;> simp [Event.owner?]

/-- Witness for C3: a write under u1 leaves the record set of u2
untouched on a concrete two-owner store. -/
theorem C3_owner_scoping_witness :
    ((memAdd envOk "u1" [("user", "I like jazz")] storeW).records.filter
        (fun r => r.owner_id == "u2")) =
      storeW.records.filter (fun r => r.owner_id == "u2") :=
  (C3_owner_scoping envOk "u1" "u2" "q" storeW [("user", "I like jazz")] sess1
    (fun _ _ _ h => h) (by decide)).2.1

/-- C7: `clear(owner_id)` removes every durable MemoryRecord and
RelationshipEdge of the given owner, and only that owner's: a different
owner's records and edges are untouched. -/
theorem C7_clear_owner_scoped (A B : String) (st : Store) (hAB : A ≠ B) :
    ((memClear A st).records.filter (fun r => r.owner_id == A) = []) ∧
    ((memClear A st).edges.filter (fun e => e.owner_id == A) = []) ∧
    ((memClear A st).records.filter (fun r => r.owner_id == B) =
      st.records.filter (fun r => r.owner_id == B)) ∧
    ((memClear A st).edges.filter (fun e => e.owner_id == B) =
      st.edges.filter (fun e => e.owner_id == B)) := by
  unfold memClear
  refine ⟨?_, ?_, ?_, ?_⟩
  · rw [List.filter_filter]; simp
  · rw [List.filter_filter]; simp
  · rw [List.filter_filter]
    refine List.filter_congr (fun r _ => ?_)
    cases hB : (r.owner_id == B) with
    | false => simp
    | true =>
      have hA : (r.owner_id == A) = false := by
        rw [beq_iff_eq.mp hB]
        exact beq_eq_false_iff_ne.mpr (fun h => hAB h.symm)
      simp [hA]
  · rw [List.filter_filter]
    refine List.filter_congr (fun e _ => ?_)
    cases hB : (e.owner_id == B) with
    | false => simp
    | true =>
      have hA : (e.owner_id == A) = false := by
        rw [beq_iff_eq.mp hB]
        exact beq_eq_false_iff_ne.mpr (fun h => hAB h.symm)
      simp [hA]

/-- Witness for C7: u1 and u2 each hold a record and an edge;
`clear(u1)` removes exactly u1's. -/
theorem C7_clear_owner_scoped_witness :
    ((memClear "u1" storeW).records.filter (fun r => r.owner_id == "u1") = []) ∧
    ((memClear "u1" storeW).edges.filter (fun e => e.owner_id == "u1") = []) ∧
    ((memClear "u1" storeW).records.filter (fun r => r.owner_id == "u2") =
      storeW.records.filter (fun r => r.owner_id == "u2")) ∧
    ((memClear "u1" storeW).edges.filter (fun e => e.owner_id == "u2") =
      storeW.edges.filter (fun e => e.owner_id == "u2")) :=
  C7_clear_owner_scoped "u1" "u2" storeW (by decide)

/-- The per-statement step when the owner scope holds no near-duplicate:
a fresh record is created. -/
theorem addStatement_of_not_found (env : Env) (owner_id s : String) (st : Store)
    (h : st.records.any (hitsDup env owner_id s) = false) :
    addStatement env owner_id s st =
      { st with records := st.records ++ [{ id := st.nextId, owner_id := owner_id, text := s }],
                nextId := st.nextId + 1 } := by
  unfold addStatement
  rw [if_neg]
  simp [h]

/-- The per-statement step when a near-duplicate exists: in-place merge,
no new record. -/
theorem addStatement_of_found (env : Env) (owner_id s : String) (st : Store)
    (h : st.records.any (hitsDup env owner_id s) = true) :
    addStatement env owner_id s st =
      { st with records := mergeFirst env owner_id s st.records } := by
  unfold addStatement
  rw [if_pos h]

/-- Merging a statement into a list whose only near-duplicate is the last
record, whose text already is the statement, changes nothing. -/
theorem mergeFirst_append_last (env : Env) (owner_id s : String) (l : List MemoryRecord)
    (r0 : MemoryRecord) (hl : l.any (hitsDup env owner_id s) = false)
    (hr : hitsDup env owner_id s r0 = true) (ht : r0.text = s) :
    mergeFirst env owner_id s (l ++ [r0]) = l ++ [r0] := by
  induction l with
  | nil =>
    simp only [List.nil_append]
    unfold mergeFirst
    rw [if_pos hr]
    have : ({ r0 with text := s } : MemoryRecord) = r0 := by rw [← ht]
    rw [this]
  | cons r rs ih =>
    have hr' : hitsDup env owner_id s r = false := by
      rw [List.any_cons] at hl
      exact (Bool.or_eq_false_iff.mp hl).1
    have hl' : rs.any (hitsDup env owner_id s) = false := by
      rw [List.any_cons] at hl
      exact (Bool.or_eq_false_iff.mp hl).2
    simp only [List.cons_append]
    unfold mergeFirst
    rw [if_neg (by simp [hr']), ih hl']

/-- C4: calling add twice with the same extracted statement for the same
owner is idempotent: the record set afterwards equals the single-add
result (one fresh record appended), and exactly one record in the
owner's scope reflects the statement, not two. -/
theorem C4_idempotent_merge (env : Env) (owner_id s : String)
    (msgs : List (String × String)) (st : Store)
    (hfacts : env.extractFacts msgs = [s])
    (hrefl : env.isNearDup s s = true)
    (h0 : st.records.any (hitsDup env owner_id s) = false) :
    ((memAdd env owner_id msgs (memAdd env owner_id msgs st)).records =
      st.records ++ [{ id := st.nextId, owner_id := owner_id, text := s }]) ∧
    (((memAdd env owner_id msgs (memAdd env owner_id msgs st)).records.filter
        (hitsDup env owner_id s)).length = 1) := by
  have hnew : hitsDup env owner_id s { id := st.nextId, owner_id := owner_id, text := s } = true := by
    unfold hitsDup
    simp [hrefl]
  have h1 : (memAdd env owner_id msgs st).records =
      st.records ++ [{ id := st.nextId, owner_id := owner_id, text := s }] := by
    rw [memAdd_records, hfacts]
    simp only [List.foldl_cons, List.foldl_nil]
    rw [addStatement_of_not_found env owner_id s st h0]
  have hany : (memAdd env owner_id msgs st).records.any (hitsDup env owner_id s) = true := by
    rw [h1, List.any_append]
    simp [hnew]
  have h2 : (memAdd env owner_id msgs (memAdd env owner_id msgs st)).records =
      st.records ++ [{ id := st.nextId, owner_id := owner_id, text := s }] := by
    rw [memAdd_records, hfacts]
    simp only [List.foldl_cons, List.foldl_nil]
    rw [addStatement_of_found env owner_id s _ hany]
    show mergeFirst env owner_id s (memAdd env owner_id msgs st).records = _
    rw [h1]
    exact mergeFirst_append_last env owner_id s st.records _ h0 hnew rfl
  refine ⟨h2, ?_⟩
  rw [h2, List.filter_append]
  rw [List.filter_eq_nil_iff.mpr (by simpa using List.any_eq_false.mp h0)]
  simp [hnew]

/-- Witness for C4: adding the same statement twice over the empty store
leaves exactly one matching record. -/
theorem C4_idempotent_merge_witness :
    ((memAdd envOk "u1" [("user", "likes jazz"), ("assistant", "nice")]
        (memAdd envOk "u1" [("user", "likes jazz"), ("assistant", "nice")] store0)).records =
      store0.records ++ [{ id := store0.nextId, owner_id := "u1", text := "likes jazz" }]) ∧
    (((memAdd envOk "u1" [("user", "likes jazz"), ("assistant", "nice")]
        (memAdd envOk "u1" [("user", "likes jazz"), ("assistant", "nice")] store0)).records.filter
        (hitsDup envOk "u1" "likes jazz")).length = 1) :=
  C4_idempotent_merge envOk "u1" "likes jazz" [("user", "likes jazz"), ("assistant", "nice")]
    store0 (by decide) (by decide) (by decide)

end SmartMemory
